import Mathlib

/-!
Verification of the SVG emission library (`svg.go`).

The library writes SVG markup fragments to an output sink.  Every operation
appends a string to the sink, so each Go method is embedded as a Lean
function returning the string it writes; sequential calls concatenate.
Operations that can panic (out-of-range indexing or slicing) return
`Option String`, with `none` marking the panic.

Go `int`/`int64` parameters are embedded as `Int` (the `%d` verb renders an
integer in decimal, matching `toString : Int → String`); Go `uint8` as `Nat`.
Go `strings.Index(s, "=")` returns the byte index of the first `=` or `-1`;
since `=` is ASCII, the byte index is `0` exactly when the character index
is `0`, and positive exactly when the character index is positive, so the
character-based index below agrees with the source on every `> 0` test.
-/

namespace Svg

/-- Model of `strings.Index(s, "=")`: index of the first `=` in `s`, `-1` if absent
(character index; see the header comment for why this matches the byte
index on the tests the source performs). -/
def eqIndex (s : String) : Int :=
  match s.data.findIdx? (fun c => c = '=') with
  | some i => (i : Int)
  | none => -1

/-- Function `style` (svg.go:948): returns `style="<s>"` for a non-empty `s`, and `s`
itself (the empty string) otherwise. -/
def style (s : String) : String :=
  if s.length > 0 then "style=\"" ++ s ++ "\"" else s

/-- Function `endstyle` (svg.go:971): folds the style items into a single attribute
string, appending the end tag.  An item whose first `=` sits at a positive
index is taken verbatim; any other item goes through `style`.  Each
fragment is followed by one space. -/
def endstyle (s : List String) (endtag : String) : String :=
  if s.length > 0 then
    (s.foldl (fun nv item =>
      nv ++ (if eqIndex item > 0 then item ++ " " else style item ++ " ")) "") ++ endtag
  else endtag

/-- Function `pct` (svg.go:1009): percentage capped at 100 (argument is a `uint8`,
embedded as `Nat`). -/
def pct (n : Nat) : Nat :=
  if n > 100 then 100 else n

/-- Function `repeatString` (svg.go:940): positive counts render in decimal, all
other counts render as `indefinite`. -/
def repeatString (n : Int) : String :=
  if n > 0 then toString n else "indefinite"

/-- Function `onezero` (svg.go:1001). -/
def onezero (flag : Bool) : String :=
  if flag then "1" else "0"

/-- Function `coord` (svg.go:1044): `x,y`. -/
def coord (x y : Int) : String :=
  toString x ++ "," ++ toString y

end Svg

/-- C6: `pct` saturates every input above 100 to 100 and returns every input
at most 100 unchanged; `pct 150 = 100`, `pct 0 = 0`, `pct 255 = 100`. -/
theorem Svg.pct_clamps_above_100 :
    (∀ n : Nat, 100 < n → Svg.pct n = 100) ∧
    (∀ n : Nat, n ≤ 100 → Svg.pct n = n) ∧
    Svg.pct 150 = 100 ∧ Svg.pct 0 = 0 ∧ Svg.pct 255 = 100 := by
  refine ⟨fun n h => ?_, fun n h => ?_, by decide, by decide, by decide⟩
  · simp [Svg.pct, h]
  · simp [Svg.pct]
    omega

/-- Witness for C6 at the concrete inputs 150 and 7. -/
theorem Svg.pct_clamps_above_100_witness :
    Svg.pct 150 = 100 ∧ Svg.pct 7 = 7 :=
  ⟨Svg.pct_clamps_above_100.1 150 (by decide),
   Svg.pct_clamps_above_100.2.1 7 (by decide)⟩

/-- C7: `repeatString` maps every `n ≤ 0` to `"indefinite"` and every
`n > 0` to its decimal string; `repeatString 0 = "indefinite"`,
`repeatString (-5) = "indefinite"`, `repeatString 3 = "3"`. -/
theorem Svg.repeatString_spec :
    (∀ n : Int, n ≤ 0 → Svg.repeatString n = "indefinite") ∧
    (∀ n : Int, 0 < n → Svg.repeatString n = toString n) ∧
    Svg.repeatString 0 = "indefinite" ∧
    Svg.repeatString (-5) = "indefinite" ∧
    Svg.repeatString 3 = "3" := by
  refine ⟨fun n h => ?_, fun n h => ?_, by decide, by decide, by decide⟩
  · simp only [Svg.repeatString, if_neg (by omega : ¬ n > 0)]
  · simp only [Svg.repeatString, if_pos (by omega : n > 0)]

/-- Witness for C7 at the concrete inputs -2 and 9. -/
theorem Svg.repeatString_spec_witness :
    Svg.repeatString (-2) = "indefinite" ∧ Svg.repeatString 9 = toString (9 : Int) :=
  ⟨Svg.repeatString_spec.1 (-2) (by decide),
   Svg.repeatString_spec.2.1 9 (by decide)⟩

namespace Svg

/-- Concatenation of `f` over a list, front to back. -/
def joinMap (f : String → String) : List String → String
  | [] => ""
  | a :: t => f a ++ joinMap f t

/-- A left fold that only appends to its accumulator is the accumulator
followed by the concatenation of the appended pieces. -/
theorem foldl_append_eq_joinMap (f : String → String) (l : List String) (init : String) :
    l.foldl (fun nv item => nv ++ f item) init = init ++ joinMap f l := by
  induction l generalizing init with
  | nil => simp [joinMap, String.append_empty]
  | cons a t ih =>
    simp only [List.foldl_cons, joinMap, ih, String.append_assoc]

/-- Rewriting of `endstyle` as the concatenation of one fragment per item. -/
theorem endstyle_joinMap (s : List String) (endtag : String) :
    endstyle s endtag =
      joinMap (fun item => if eqIndex item > 0 then item ++ " " else style item ++ " ") s
        ++ endtag := by
  cases s with
  | nil => simp [endstyle, joinMap, String.empty_append]
  | cons a t =>
    simp only [endstyle, List.length_cons, if_pos (Nat.succ_pos _), foldl_append_eq_joinMap,
      String.empty_append]

theorem joinMap_congr {f g : String → String} {l : List String}
    (h : ∀ x ∈ l, f x = g x) : joinMap f l = joinMap g l := by
  induction l with
  | nil => rfl
  | cons a t ih =>
    simp only [joinMap, h a (by simp), ih (fun x hx => h x (by simp [hx]))]

/-- A string of length zero is the empty string. -/
theorem eq_empty_of_length_zero {s : String} (h : ¬ s.length > 0) : s = "" := by
  cases s with
  | mk l =>
    cases l with
    | nil => rfl
    | cons a t => simp [String.length] at h

/-- Definition of `composeAttributes` as the spec words it: an item is taken verbatim
whenever it contains `=` anywhere, and is wrapped as `style="<item>"`
otherwise.  (Stated from the spec for comparison with `endstyle`; the
source tests `strings.Index(s[i], "=") > 0` instead.) -/
def composeAttributesSpec (items : List String) (closing : String) : String :=
  joinMap (fun item =>
    if item.data.contains '=' then item ++ " "
    else "style=\"" ++ item ++ "\" ") items ++ closing

/-- The attribute-composition rule the source actually implements, as an
item-by-item map: an item whose first `=` sits at a positive index is taken
verbatim, any other non-empty item is wrapped as `style="<item>"`, and an
empty item contributes only its separating space. -/
def composeAttributesAmended (items : List String) (closing : String) : String :=
  joinMap (fun item =>
    if eqIndex item > 0 then item ++ " "
    else if item.length > 0 then "style=\"" ++ item ++ "\" "
    else " ") items ++ closing

end Svg

/-- C1 counterexample: the item `"=a"` contains `=`, so the claim would
append it verbatim, but `endstyle` wraps it as `style="=a"` because the
source requires the `=` to sit at a positive index. -/
theorem Svg.endstyle_contains_eq_claim_false :
    Svg.endstyle ["=a"] ">" = "style=\"=a\" >" ∧
    Svg.composeAttributesSpec ["=a"] ">" = "=a >" ∧
    Svg.endstyle ["=a"] ">" ≠ Svg.composeAttributesSpec ["=a"] ">" := by
  refine ⟨by decide, by decide, by decide⟩

/-- C1 amended: for every item sequence and closing token, `endstyle`
returns the closing token alone on the empty sequence and otherwise,
preserving order, appends each item verbatim when its first `=` sits at a
positive index, wraps every other non-empty item as `style="<item>"`, and
lets an empty item contribute only its separating space, each fragment
being followed by one space before the closing token; in particular
`endstyle ["a=1", "b"] ">"` is `a=1 style="b" >`. -/
theorem Svg.endstyle_amended_correct :
    (∀ (items : List String) (closing : String),
      Svg.endstyle items closing = Svg.composeAttributesAmended items closing) ∧
    Svg.endstyle ["a=1", "b"] ">" = "a=1 style=\"b\" >" := by
  refine ⟨fun items closing => ?_, by decide⟩
  rw [Svg.endstyle_joinMap, Svg.composeAttributesAmended]
  congr 1
  refine Svg.joinMap_congr (fun item _ => ?_)
  by_cases hidx : Svg.eqIndex item > 0
  · simp [hidx]
  · by_cases hlen : item.length > 0
    · simp only [if_neg hidx, if_pos hlen, Svg.style, String.append_assoc]
      rfl
    · have : item = "" := Svg.eq_empty_of_length_zero hlen
      subst this
      simp [hidx, Svg.style]

namespace Svg

def emptyclose : String := "/>\n"

/-- The attribute part of `Rect` (svg.go:327-335): for each style item the
loop appends a leading space and then the item verbatim when its first `=`
sits at a positive index, and ` style="<item>"` otherwise (also for the
empty item). -/
def rectAttrs (s : List String) : String :=
  s.foldl (fun nv item =>
    nv ++ (if eqIndex item > 0 then " " ++ item else " style=\"" ++ item ++ "\"")) ""

/-- Method `Rect` (svg.go:321): opening tag, the four dimension attributes, the
inlined style loop, a space, and the self-closing token. -/
def Rect (x y w h : Int) (s : List String) : String :=
  "<rect " ++ ("x=\"" ++ toString x ++ "\" y=\"" ++ toString y ++ "\" width=\"" ++ toString w
    ++ "\" height=\"" ++ toString h ++ "\"") ++ rectAttrs s ++ (" " ++ emptyclose)

/-- Method `Square` (svg.go:355). -/
def Square (x y l : Int) (s : List String) : String :=
  Rect x y l l s

/-- Removes every space character; two attribute strings that agree after
this removal are equal up to whitespace. -/
def stripSpaces (s : String) : String :=
  String.mk (s.data.filter (fun c => c ≠ ' '))

theorem stripSpaces_append (a b : String) :
    stripSpaces (a ++ b) = stripSpaces a ++ stripSpaces b := by
  cases a with
  | mk la => cases b with
    | mk lb =>
      show String.mk ((la ++ lb).filter _) = String.mk (la.filter _) ++ String.mk (lb.filter _)
      rw [List.filter_append]
      rfl

theorem stripSpaces_joinMap (f : String → String) (l : List String) :
    stripSpaces (joinMap f l) = joinMap (fun x => stripSpaces (f x)) l := by
  induction l with
  | nil => rfl
  | cons a t ih => simp only [joinMap, stripSpaces_append, ih]

end Svg

/-- C10 counterexample: on the single empty style item, the inline loop of `Rect` emits ` style=""` while `endstyle` emits only a separating space, so
the two compositions differ by more than whitespace. -/
theorem Svg.rect_endstyle_empty_item_differs :
    Svg.stripSpaces (Svg.rectAttrs [""]) = "style=\"\"" ∧
    Svg.stripSpaces (Svg.endstyle [""] "") = "" ∧
    Svg.stripSpaces (Svg.rectAttrs [""]) ≠ Svg.stripSpaces (Svg.endstyle [""] "") := by
  refine ⟨by decide, by decide, by decide⟩

/-- C10 amended: for every style-item list without empty-string items, the
attribute composition inlined in `Rect` emits the same fragments as the
shared `endstyle` function — equal after removing whitespace; on an
empty-string item the two differ (`Rect` emits `style=""`, `endstyle`
emits nothing). -/
theorem Svg.rect_endstyle_equiv_nonempty (s : List String)
    (h : ∀ item ∈ s, item ≠ "") :
    Svg.stripSpaces (Svg.rectAttrs s) = Svg.stripSpaces (Svg.endstyle s "") := by
  rw [Svg.endstyle_joinMap, String.append_empty, Svg.rectAttrs,
    Svg.foldl_append_eq_joinMap, String.empty_append, Svg.stripSpaces_joinMap,
    Svg.stripSpaces_joinMap]
  refine Svg.joinMap_congr (fun item hitem => ?_)
  have hlen : item.length > 0 := by
    rcases item with ⟨l⟩
    cases l with
    | nil => exact absurd rfl (h _ hitem)
    | cons a t => simp [String.length]
  by_cases hidx : Svg.eqIndex item > 0
  · simp only [if_pos hidx, Svg.stripSpaces_append]
    rw [show Svg.stripSpaces " " = "" from rfl, String.empty_append, String.append_empty]
  · simp only [if_neg hidx, Svg.style, if_pos hlen, Svg.stripSpaces_append]
    rw [show Svg.stripSpaces " style=\"" = "style=\"" from rfl,
      show Svg.stripSpaces " " = "" from rfl, String.append_empty,
      show Svg.stripSpaces "style=\"" = "style=\"" from rfl]

/-- Witness for C10 at a concrete two-item list. -/
theorem Svg.rect_endstyle_equiv_nonempty_witness :
    Svg.stripSpaces (Svg.rectAttrs ["fill=\"red\"", "stroke:blue"])
      = Svg.stripSpaces (Svg.endstyle ["fill=\"red\"", "stroke:blue"] "") :=
  Svg.rect_endstyle_equiv_nonempty ["fill=\"red\"", "stroke:blue"] (by decide)

namespace Svg

def svgtop : String := "<?xml version=\"1.0\"?>\n<svg"

def svgns : String :=
  "\n     xmlns=\"http://www.w3.org/2000/svg\"\n     xmlns:xlink=\"http://www.w3.org/1999/xlink\">"

/-- Method `genattr` (svg.go:78): one `\n     <attr>` line per extra namespace,
then `svgns` and the newline of the final `println`. -/
def genattr (ns : List String) : String :=
  joinMap (fun v => "\n     " ++ v) ns ++ svgns ++ "\n"

/-- Method `Start` (svg.go:90): `svginitfmt` applied to `svgtop`, the width and
the height (with empty unit strings), followed by `genattr`. -/
def Start (w h : Int) (ns : List String) : String :=
  svgtop ++ " width=\"" ++ toString w ++ "\" height=\"" ++ toString h ++ "\"" ++ genattr ns

/-- Method `Circle` (svg.go:302). -/
def Circle (x y r : Int) (s : List String) : String :=
  "<circle cx=\"" ++ toString x ++ "\" cy=\"" ++ toString y ++ "\" r=\"" ++ toString r
    ++ "\" " ++ endstyle s emptyclose

/-- Method `End` (svg.go:127). -/
def End : String := "</svg>\n"

end Svg

set_option maxRecDepth 20000 in
/-- C2: `Start 100 100`, then `Circle 50 50 40`, then `End` writes exactly
the canonical hello-world document: XML declaration, the svg root tag with
`width="100"`, `height="100"` and the two namespace declarations, one
self-closing circle with `cx="50" cy="50" r="40"`, and `</svg>`. -/
theorem Svg.start_circle_end_document :
    Svg.Start 100 100 [] ++ Svg.Circle 50 50 40 [] ++ Svg.End =
      "<?xml version=\"1.0\"?>\n<svg width=\"100\" height=\"100\"\n     xmlns=\"http://www.w3.org/2000/svg\"\n     xmlns:xlink=\"http://www.w3.org/1999/xlink\">\n<circle cx=\"50\" cy=\"50\" r=\"40\" />\n</svg>\n" := by
  decide

namespace Svg

/-- Method `pp` (svg.go:956): prints the tag, then on mismatched lengths a single
space; otherwise the loop prints the first `len(x)-1` coordinate pairs and
the final print indexes `x[len(x)-1]`, which for empty arrays is `x[-1]` —
an out-of-range index (a panic), modelled as `none`.  In the in-range
branch every index is below the common length, so the default of `getD` is
never consulted. -/
def pp (x y : List Int) (tag : String) : Option String :=
  if x.length ≠ y.length then some (tag ++ " ")
  else if x.length = 0 then none
  else some (tag ++
    ((List.range (x.length - 1)).foldl
      (fun acc i => acc ++ coord (x.getD i 0) (y.getD i 0) ++ " ") "")
    ++ coord (x.getD (x.length - 1) 0) (y.getD (x.length - 1) 0))

/-- Method `poly` (svg.go:995): `pp` on `<tag points="`, then `" ` and the style
items with the self-closing token. -/
def poly (x y : List Int) (tag : String) (s : List String) : Option String :=
  (pp x y ("<" ++ tag ++ " points=\"")).map (fun p => p ++ ("\" " ++ endstyle s "/>\n"))

/-- Method `Polygon` (svg.go:315). -/
def Polygon (x y : List Int) (s : List String) : Option String :=
  poly x y "polygon" s

/-- Method `Polyline` (svg.go:412). -/
def Polyline (x y : List Int) (s : List String) : Option String :=
  poly x y "polyline" s

end Svg

/-- C5: on coordinate arrays of different lengths, `poly` (hence `Polygon`
and `Polyline`) still writes the element, with a degenerate points list (a
single space, no coordinate pairs) and no out-of-range indexing. -/
theorem Svg.poly_mismatched_lengths_degenerate
    (x y : List Int) (tag : String) (s : List String) (h : x.length ≠ y.length) :
    Svg.poly x y tag s =
      some ((("<" ++ tag ++ " points=\"") ++ " ") ++ ("\" " ++ Svg.endstyle s "/>\n")) := by
  simp [Svg.poly, Svg.pp, h]

/-- Witness for C5 at `x = [1]`, `y = []`. -/
theorem Svg.poly_mismatched_lengths_degenerate_witness :
    Svg.poly [1] [] "polygon" [] =
      some ((("<" ++ "polygon" ++ " points=\"") ++ " ") ++ ("\" " ++ Svg.endstyle [] "/>\n")) :=
  Svg.poly_mismatched_lengths_degenerate [1] [] "polygon" [] (by decide)

/-- C9: on empty-but-equal coordinate arrays, `pp` passes the length check
and indexes `x[-1]`, so `Polygon` and `Polyline` panic: the empty-equal
case is not handled and the operation is not total. -/
theorem Svg.polygon_polyline_empty_arrays_panic (s : List String) :
    Svg.Polygon [] [] s = none ∧ Svg.Polyline [] [] s = none := by
  exact ⟨rfl, rfl⟩

namespace Svg

/-- Record `Filterspec` (svg.go:47). -/
structure Filterspec where
  In : String
  In2 : String
  Result : String

/-- Function `fsattr` (svg.go:1061): `in="…" in2="…" result="…"`, each emitted with
a trailing space and only when non-empty. -/
def fsattr (s : Filterspec) : String :=
  (if s.In.length > 0 then "in=\"" ++ s.In ++ "\" " else "") ++
  (if s.In2.length > 0 then "in2=\"" ++ s.In2 ++ "\" " else "") ++
  (if s.Result.length > 0 then "result=\"" ++ s.Result ++ "\" " else "")

/-- The type-normalization switch of `FeTurbulence` (svg.go:781-788).  The
source switches on the slice `ftype[0:1]`; on the empty string that slice
is out of range and the call panics, modelled as `none`.  On a non-empty
string the slice is the first byte, which equals `"f"`, `"F"`, `"t"` or
`"T"` exactly when the first character is that ASCII letter (any other
first byte falls to the default case, as does any other first character
here). -/
def feTurbulenceType (ftype : String) : Option String :=
  match ftype.data with
  | [] => none
  | c :: _ =>
    if c = 'f' ∨ c = 'F' then some "fractalNoise"
    else if c = 't' ∨ c = 'T' then some "turbulence"
    else some "turbulence"

/-- Mode switch of `FeBlend` (svg.go:540-545): unrecognized modes fall back
to `normal`. -/
def feBlendMode (mode : String) : String :=
  if mode = "normal" ∨ mode = "multiply" ∨ mode = "screen" ∨ mode = "darken"
      ∨ mode = "lighten" then mode
  else "normal"

end Svg

/-- C3: on the empty turbulence-type string the `FeTurbulence` switch
panics (slice `ftype[0:1]` out of range) instead of silently coercing to
the default, while every non-empty string is silently coerced to a valid
type; the mode parameter of `FeBlend`, in contrast, is silently defaulted on
every input. -/
theorem Svg.feTurbulence_empty_type_panics :
    Svg.feTurbulenceType "" = none ∧
    (∀ t : String, t ≠ "" → (Svg.feTurbulenceType t).isSome = true) ∧
    (∀ m : String, Svg.feBlendMode m = m ∨ Svg.feBlendMode m = "normal") := by
  refine ⟨rfl, fun t ht => ?_, fun m => ?_⟩
  · rcases t with ⟨l⟩
    cases l with
    | nil => exact absurd rfl ht
    | cons c rest =>
      show (if c = 'f' ∨ c = 'F' then some "fractalNoise"
        else if c = 't' ∨ c = 'T' then some "turbulence"
        else some "turbulence").isSome = true
      split
      · rfl
      · split <;> rfl
  · unfold Svg.feBlendMode
    split
    · exact Or.inl rfl
    · exact Or.inr rfl

/-- Witness for C3 at the concrete strings `"FRACTAL"` and `"x"`. -/
theorem Svg.feTurbulence_empty_type_panics_witness :
    (Svg.feTurbulenceType "FRACTAL").isSome = true ∧
    (Svg.feTurbulenceType "x").isSome = true ∧
    (Svg.feBlendMode "bogus" = "bogus" ∨ Svg.feBlendMode "bogus" = "normal") :=
  ⟨Svg.feTurbulence_empty_type_panics.2.1 "FRACTAL" (by decide),
   Svg.feTurbulence_empty_type_panics.2.1 "x" (by decide),
   Svg.feTurbulence_empty_type_panics.2.2 "bogus"⟩

namespace Svg

/-- Model of `strings.ToUpper`, restricted to the ASCII strings `imgchannel`
applies it to. -/
def toUpperStr (s : String) : String :=
  String.mk (s.data.map Char.toUpper)

/-- Function `imgchannel` (svg.go:1085).  `c[0:1]` is the one-character prefix for
the ASCII cases it is applied to, modelled by `String.take 1`. -/
def imgchannel (c : String) : String :=
  if c = "R" ∨ c = "G" ∨ c = "B" ∨ c = "A" then c
  else if c = "r" ∨ c = "g" ∨ c = "b" ∨ c = "a" then toUpperStr c
  else if c = "red" ∨ c = "green" ∨ c = "blue" ∨ c = "alpha" then toUpperStr (c.take 1)
  else if c = "Red" ∨ c = "Green" ∨ c = "Blue" ∨ c = "Alpha" then c.take 1
  else "R"

/-- Method `FeDisplacementMap` (svg.go:638).  The float scale is rendered by `%g`
and taken here already formatted; the source passes only `xchannel`
through `imgchannel` and emits `ychannel` verbatim. -/
def FeDisplacementMap (fs : Filterspec) (scale : String) (xchannel ychannel : String)
    (s : List String) : String :=
  "<feDisplacementMap " ++ fsattr fs ++ " scale=\"" ++ scale ++ "\" xChannelSelector=\""
    ++ imgchannel xchannel ++ "\" yChannelSelector=\"" ++ ychannel ++ "\" "
    ++ endstyle s emptyclose

end Svg

/-- C4: `imgchannel` normalizes `"red"`, `"R"`, `"r"` to `"R"` and defaults
unrecognized input to `"R"`, but `FeDisplacementMap` applies it only to the
x channel: the unrecognized y channel `"bogus"` is emitted verbatim in
`yChannelSelector` instead of the default `"R"`. -/
theorem Svg.feDisplacementMap_ychannel_not_normalized :
    Svg.imgchannel "red" = "R" ∧ Svg.imgchannel "R" = "R" ∧
    Svg.imgchannel "r" = "R" ∧ Svg.imgchannel "bogus" = "R" ∧
    Svg.FeDisplacementMap ⟨"", "", ""⟩ "1" "red" "bogus" [] =
      "<feDisplacementMap  scale=\"1\" xChannelSelector=\"R\" yChannelSelector=\"bogus\" />\n" := by
  refine ⟨by decide, by decide, by decide, by decide, by decide⟩

namespace Svg

/-- Character-range predicate of `encoding/xml.isInCharacterRange`: the
code points XML permits in text content. -/
def isInCharacterRange (r : Char) : Bool :=
  r.toNat = 0x09 || r.toNat = 0x0A || r.toNat = 0x0D ||
  (0x20 ≤ r.toNat && r.toNat ≤ 0xD7FF) ||
  (0xE000 ≤ r.toNat && r.toNat ≤ 0xFFFD) ||
  (0x10000 ≤ r.toNat && r.toNat ≤ 0x10FFFF)

/-- Per-character action of `encoding/xml.escapeText` as invoked through
`xml.Escape` (escapeNewline = true): the eight special characters become
entities, characters outside the XML range become U+FFFD, and every other
character passes through. -/
def escChar (c : Char) : List Char :=
  if c = '"' then "&#34;".data
  else if c = '\'' then "&#39;".data
  else if c = '&' then "&amp;".data
  else if c = '<' then "&lt;".data
  else if c = '>' then "&gt;".data
  else if c = '\t' then "&#x9;".data
  else if c = '\n' then "&#xA;".data
  else if c = '\r' then "&#xD;".data
  else if isInCharacterRange c then [c]
  else ['�']

/-- Text escaping applied by the emitter to free-form display text:
`xml.Escape` over the characters of the input. -/
def escapeText : List Char → List Char
  | [] => []
  | c :: rest => escChar c ++ escapeText rest

/-- Helper function `loc` (svg.go:1050). -/
def loc (x y : Int) : String :=
  "x=\"" ++ toString x ++ "\" y=\"" ++ toString y ++ "\""

/-- Method `Text` (svg.go:425): the style items close the opening tag, the
display text is escaped, and the element is closed. -/
def Text (x y : Int) (t : String) (s : List String) : String :=
  "<text " ++ loc x y ++ " " ++ endstyle s ">"
    ++ String.mk (escapeText t.data) ++ "</text>" ++ "\n"

/-- Helper method `tt` (svg.go:988), used by `Title` and `Desc`: tag around
escaped text. -/
def tt (tag : String) (s : String) : String :=
  "<" ++ tag ++ ">" ++ String.mk (escapeText s.data) ++ "</" ++ tag ++ ">" ++ "\n"

/-- Standard text-unescaping: one entity recognized after a `&`, returning
the decoded character and the remaining input. -/
def entityStep : List Char → Option (Char × List Char)
  | 'a' :: 'm' :: 'p' :: ';' :: rest1 => some ('&', rest1)
  | 'l' :: 't' :: ';' :: rest1 => some ('<', rest1)
  | 'g' :: 't' :: ';' :: rest1 => some ('>', rest1)
  | '#' :: '3' :: '4' :: ';' :: rest1 => some ('"', rest1)
  | '#' :: '3' :: '9' :: ';' :: rest1 => some ('\'', rest1)
  | '#' :: 'x' :: '9' :: ';' :: rest1 => some ('\t', rest1)
  | '#' :: 'x' :: 'A' :: ';' :: rest1 => some ('\n', rest1)
  | '#' :: 'x' :: 'D' :: ';' :: rest1 => some ('\r', rest1)
  | _ => none

/-- Fuelled unescaping loop: a `&` starting a recognized entity is decoded,
any other character is copied.  Every step consumes at least one input
character, so fuel equal to the input length is enough and the
fuel-exhausted branch (which copies the remainder) is never reached from
`unescapeText`. -/
def unescapeAux : Nat → List Char → List Char
  | _, [] => []
  | 0, c :: rest => c :: rest
  | fuel + 1, c :: rest =>
    if c = '&' then
      match entityStep rest with
      | some (d, rest1) => d :: unescapeAux fuel rest1
      | none => c :: unescapeAux fuel rest
    else c :: unescapeAux fuel rest

/-- Standard text-unescaping of the markup grammar: decode entities, copy
everything else. -/
def unescapeText (s : List Char) : List Char :=
  unescapeAux s.length s

set_option maxHeartbeats 1000000 in
/-- A successful entity decode consumes at least three input characters. -/
theorem entityStep_length {l rest1 : List Char} {d : Char}
    (h : entityStep l = some (d, rest1)) : rest1.length + 3 ≤ l.length := by
  rw [entityStep.eq_def] at h
  split at h <;> simp_all

/-- Any two sufficient fuels give `unescapeAux` the same value. -/
theorem unescapeAux_mono :
    ∀ (f1 : Nat) (s : List Char), s.length ≤ f1 → ∀ (f2 : Nat), s.length ≤ f2 →
      unescapeAux f1 s = unescapeAux f2 s := by
  intro f1
  induction f1 with
  | zero =>
    intro s hs f2 _
    have : s = [] := List.eq_nil_of_length_eq_zero (Nat.le_zero.mp hs)
    subst this
    cases f2 <;> rfl
  | succ g1 ih =>
    intro s hs f2 hs2
    cases s with
    | nil => cases f2 <;> rfl
    | cons c rest =>
      cases f2 with
      | zero => simp at hs2
      | succ g2 =>
        show unescapeAux (g1 + 1) (c :: rest) = unescapeAux (g2 + 1) (c :: rest)
        simp only [unescapeAux]
        by_cases hc : c = '&'
        · rw [if_pos hc, if_pos hc]
          cases he : entityStep rest with
          | none =>
            simp only []
            have hr : rest.length ≤ g1 := by simp at hs; omega
            have hr2 : rest.length ≤ g2 := by simp at hs2; omega
            rw [ih rest hr g2 hr2]
          | some p =>
            rcases p with ⟨d, rest1⟩
            simp only []
            have hl := entityStep_length he
            have hr : rest1.length ≤ g1 := by simp at hs; omega
            have hr2 : rest1.length ≤ g2 := by simp at hs2; omega
            rw [ih rest1 hr g2 hr2]
        · rw [if_neg hc, if_neg hc]
          have hr : rest.length ≤ g1 := by simp at hs; omega
          have hr2 : rest.length ≤ g2 := by simp at hs2; omega
          rw [ih rest hr g2 hr2]

/-- Unescaping undoes one escaped character in front of any tail. -/
theorem unescape_append (c : Char) (hc : isInCharacterRange c = true) (T : List Char) :
    unescapeText (escChar c ++ T) = c :: unescapeText T := by
  by_cases h1 : c = '"'
  · subst h1
    calc unescapeText (escChar '"' ++ T) = '"' :: unescapeAux (T.length + 4) T := rfl
      _ = '"' :: unescapeText T := by
        rw [unescapeAux_mono (T.length + 4) T (by omega) T.length (Nat.le_refl _)]; rfl
  · by_cases h2 : c = '\''
    · subst h2
      calc unescapeText (escChar '\'' ++ T) = '\'' :: unescapeAux (T.length + 4) T := rfl
        _ = '\'' :: unescapeText T := by
          rw [unescapeAux_mono (T.length + 4) T (by omega) T.length (Nat.le_refl _)]; rfl
    · by_cases h3 : c = '&'
      · subst h3
        calc unescapeText (escChar '&' ++ T) = '&' :: unescapeAux (T.length + 4) T := rfl
          _ = '&' :: unescapeText T := by
            rw [unescapeAux_mono (T.length + 4) T (by omega) T.length (Nat.le_refl _)]; rfl
      · by_cases h4 : c = '<'
        · subst h4
          calc unescapeText (escChar '<' ++ T) = '<' :: unescapeAux (T.length + 3) T := rfl
            _ = '<' :: unescapeText T := by
              rw [unescapeAux_mono (T.length + 3) T (by omega) T.length (Nat.le_refl _)]; rfl
        · by_cases h5 : c = '>'
          · subst h5
            calc unescapeText (escChar '>' ++ T) = '>' :: unescapeAux (T.length + 3) T := rfl
              _ = '>' :: unescapeText T := by
                rw [unescapeAux_mono (T.length + 3) T (by omega) T.length (Nat.le_refl _)]; rfl
          · by_cases h6 : c = '\t'
            · subst h6
              calc unescapeText (escChar '\t' ++ T) = '\t' :: unescapeAux (T.length + 4) T := rfl
                _ = '\t' :: unescapeText T := by
                  rw [unescapeAux_mono (T.length + 4) T (by omega) T.length (Nat.le_refl _)]; rfl
            · by_cases h7 : c = '\n'
              · subst h7
                calc unescapeText (escChar '\n' ++ T) = '\n' :: unescapeAux (T.length + 4) T := rfl
                  _ = '\n' :: unescapeText T := by
                    rw [unescapeAux_mono (T.length + 4) T (by omega) T.length (Nat.le_refl _)]; rfl
              · by_cases h8 : c = '\r'
                · subst h8
                  calc unescapeText (escChar '\r' ++ T) = '\r' :: unescapeAux (T.length + 4) T := rfl
                    _ = '\r' :: unescapeText T := by
                      rw [unescapeAux_mono (T.length + 4) T (by omega) T.length (Nat.le_refl _)]; rfl
                · have hesc : escChar c = [c] := by
                    simp [escChar, h1, h2, h3, h4, h5, h6, h7, h8, hc]
                  rw [hesc]
                  show unescapeAux (T.length + 1) (c :: T) = c :: unescapeText T
                  simp only [unescapeAux, if_neg h3]
                  rfl

end Svg

/-- C8 counterexample: the string `"\x00&"` contains `&`, but escaping
replaces the XML-invalid `\x00` with U+FFFD, so unescaping the escaped
output does not return the original string. -/
theorem Svg.escape_roundtrip_claim_false :
    "\x00&".data.contains '&' = true ∧
    Svg.unescapeText (Svg.escapeText "\x00&".data) ≠ "\x00&".data := by
  refine ⟨by decide, by decide⟩

/-- C8 amended: for every raw string all of whose characters lie in the XML
character range — in particular any such string containing `<`, `>` or `&`
— the text escaping applied by the emitter to free-form display text
produces output whose standard text-unescaping yields exactly the original
string; characters outside the range are replaced by U+FFFD and do not
round-trip. -/
theorem Svg.escape_unescape_roundtrip (s : List Char)
    (h : ∀ c ∈ s, Svg.isInCharacterRange c = true) :
    Svg.unescapeText (Svg.escapeText s) = s := by
  induction s with
  | nil => rfl
  | cons c rest ih =>
    rw [show Svg.escapeText (c :: rest) = Svg.escChar c ++ Svg.escapeText rest from rfl,
      Svg.unescape_append c (h c (by simp)) (Svg.escapeText rest),
      ih (fun x hx => h x (by simp [hx]))]

/-- Witness for C8 at a concrete string containing `<`, `>`, `&`, quotes. -/
theorem Svg.escape_unescape_roundtrip_witness :
    Svg.unescapeText (Svg.escapeText "a<b>&c\"d".data) = "a<b>&c\"d".data :=
  Svg.escape_unescape_roundtrip "a<b>&c\"d".data (by decide)

/-- Witness for C1 at the concrete example list. -/
theorem Svg.endstyle_amended_correct_witness :
    Svg.endstyle ["a=1", "b"] ">" = Svg.composeAttributesAmended ["a=1", "b"] ">" :=
  Svg.endstyle_amended_correct.1 ["a=1", "b"] ">"

/-- Witness for C9 at a concrete style list. -/
theorem Svg.polygon_polyline_empty_arrays_panic_witness :
    Svg.Polygon [] [] ["fill:red"] = none ∧ Svg.Polyline [] [] ["fill:red"] = none :=
  Svg.polygon_polyline_empty_arrays_panic ["fill:red"]
